import Mathlib

/-!
# Verification of the aura extension coordination layer

Shallow embedding of the two source files of the repository:
* `src/aura-extension/src/popup/popup.js` — the popup controller
  (status label, button rendering, start/pause/resume/stop/refresh
  operations, the polling timer);
* `src/unnamed/part_000` — the content-script coordinator
  (message dispatcher, `startReading` orchestration over the
  content extractor, page reader and overlay).

The enumeration `READING_STATUS` and the message-type constants live in
`src/common/constants.js`, which is not part of the examined sources; the
spec fixes them as closed enumerations, so they are embedded as inductive
types with an extra `other` constructor for values outside the
enumeration (statuses and message types are strings in the source, and
the dispatchers compare them by equality, so distinct constructors
faithfully model the distinct string constants).
-/

namespace Aura

/-- Reading-session status.  The six members of `READING_STATUS` plus
`other s` for an arbitrary string outside the enumeration. -/
inductive Status where
  | idle
  | reading
  | paused
  | stopped
  | complete
  | error
  | other (s : String)
deriving DecidableEq, Repr

/-- JavaScript truthiness of a status value: statuses are strings, and the
only falsy string is the empty string.  The six enumeration constants are
non-empty strings. -/
def Status.truthy : Status → Bool
  | .other s => s ≠ ""
  | _ => true

/-- Message types.  The five members of `MESSAGE_TYPES` plus `other s`
for an arbitrary unrecognized type. -/
inductive MsgType where
  | startReading
  | pauseReading
  | resumeReading
  | stopReading
  | getStatus
  | other (s : String)
deriving DecidableEq, Repr

/-! ## Popup controller (`popup.js`) -/

/-- The DOM state the popup mutates, plus its module-level cache
`currentStatus`.  Field names follow the elements of `popup.js`:
`readButton.disabled`, `controls.style.display`,
`pauseButton.style.display`, `resumeButton.style.display`,
`pauseButton.disabled`, `resumeButton.disabled`, `stopButton.disabled`
and `statusElement.textContent`. -/
structure PopupState where
  currentStatus : Status
  statusText : String
  readDisabled : Bool
  controlsDisplay : String
  pauseDisplay : String
  resumeDisplay : String
  pauseDisabled : Bool
  resumeDisabled : Bool
  stopDisabled : Bool
deriving DecidableEq, Repr

/-- The `statusMessages` object literal of `updateStatus`: a partial map
from status to label. -/
def statusMessages : Status → Option String
  | .idle => some "Ready to read"
  | .reading => some "Reading…"
  | .paused => some "Paused"
  | .stopped => some "Stopped"
  | .complete => some "Reading complete"
  | .error => some "Error reading page"
  | .other _ => none

/-- `updateStatus(status)` of `popup.js`: store the argument in
`currentStatus` and set the label, falling back to `'Ready to read'`
when the lookup misses. -/
def updateStatus (status : Status) (s : PopupState) : PopupState :=
  { s with
    currentStatus := status
    statusText := (statusMessages status).getD "Ready to read" }

/-- `updateButtons(status)` of `popup.js`: the switch over the status.
`IDLE` has no case and falls to the default branch together with every
unrecognized value; the default branch leaves the two
`style.display` fields of the pause/resume buttons untouched, exactly as
the source does. -/
def updateButtons (status : Status) (s : PopupState) : PopupState :=
  match status with
  | .reading =>
    { s with
      readDisabled := true, controlsDisplay := "flex"
      pauseDisplay := "block", resumeDisplay := "none"
      pauseDisabled := false, resumeDisabled := true, stopDisabled := false }
  | .paused =>
    { s with
      readDisabled := true, controlsDisplay := "flex"
      pauseDisplay := "none", resumeDisplay := "block"
      pauseDisabled := true, resumeDisabled := false, stopDisabled := false }
  | .complete | .stopped | .error =>
    { s with
      readDisabled := false, controlsDisplay := "flex"
      pauseDisplay := "block", resumeDisplay := "none"
      pauseDisabled := true, resumeDisabled := true, stopDisabled := true }
  | _ =>
    { s with
      readDisabled := false, controlsDisplay := "none"
      pauseDisabled := true, resumeDisabled := true, stopDisabled := true }

/-- The shape of a response as the popup sees it: `sendMessageToTab`
resolves with the value passed to `sendResponse`, which may be absent
(`undefined`) or may lack a `status` field.  Only the `status` field is
ever read by the popup. -/
structure RawResponse where
  status : Option Status
deriving DecidableEq, Repr

/-- The environment of one popup operation: the result of
`chrome.tabs.query({active:true,currentWindow:true})` (destructured to
the first tab, `none` when the query returns an empty array) and, per
tab id and message type, the outcome of `sendMessageToTab`
(`Except.error` models the rejection taken when
`chrome.runtime.lastError` is set; `Except.ok` the resolution with the
receiver's response). -/
structure PopupEnv where
  tab : Option Nat
  send : Nat → MsgType → Except String (Option RawResponse)

/-- `startReading()` of `popup.js`: reset the display to IDLE, find the
active tab (throwing when there is none), send `START_READING`, and set
the display to READING; any thrown error is caught and the display set
to ERROR. -/
def popupStartReading (env : PopupEnv) (s : PopupState) : PopupState :=
  let s1 := updateButtons .idle (updateStatus .idle s)
  match env.tab with
  | none => updateButtons .error (updateStatus .error s1)
  | some tid =>
    match env.send tid .startReading with
    | .error _ => updateButtons .error (updateStatus .error s1)
    | .ok _ => updateButtons .reading (updateStatus .reading s1)

/-- `pauseReading()` of `popup.js`: when a tab is found, send
`PAUSE_READING` and set the display to PAUSED; when the send rejects the
error is only logged (state untouched); when no tab is found the `if`
body is simply skipped. -/
def popupPauseReading (env : PopupEnv) (s : PopupState) : PopupState :=
  match env.tab with
  | none => s
  | some tid =>
    match env.send tid .pauseReading with
    | .error _ => s
    | .ok _ => updateButtons .paused (updateStatus .paused s)

/-- `resumeReading()` of `popup.js`, same shape as `pauseReading`. -/
def popupResumeReading (env : PopupEnv) (s : PopupState) : PopupState :=
  match env.tab with
  | none => s
  | some tid =>
    match env.send tid .resumeReading with
    | .error _ => s
    | .ok _ => updateButtons .reading (updateStatus .reading s)

/-- `stopReading()` of `popup.js`, same shape as `pauseReading`. -/
def popupStopReading (env : PopupEnv) (s : PopupState) : PopupState :=
  match env.tab with
  | none => s
  | some tid =>
    match env.send tid .stopReading with
    | .error _ => s
    | .ok _ => updateButtons .stopped (updateStatus .stopped s)

/-- `refreshStatus()` of `popup.js`: when a tab is found, send
`GET_STATUS`; when the response is truthy and carries a truthy `status`
field, adopt it; when the send rejects, the catch resets the display to
IDLE; in every remaining path (no tab, absent response, response without
a truthy status) nothing is executed and the state is unchanged. -/
def popupRefreshStatus (env : PopupEnv) (s : PopupState) : PopupState :=
  match env.tab with
  | none => s
  | some tid =>
    match env.send tid .getStatus with
    | .error _ => updateButtons .idle (updateStatus .idle s)
    | .ok none => s
    | .ok (some resp) =>
      match resp.status with
      | none => s
      | some st =>
        if st.truthy then updateButtons st (updateStatus st s) else s

/-! ## Content-script coordinator (`src/unnamed/part_000`) -/

/-- State of the page reader as observed through its three queries
`getStatus()`, `isReading()` and `isPaused()`. -/
structure ReaderState where
  status : Status
  reading : Bool
  paused : Bool
deriving DecidableEq, Repr

/-- Modelled from the spec: `pageReader.js` is not among the examined
sources; §3 fixes the lifecycle — "state is created at extension load
(`IDLE`)" — and §8 fixes the initial query triple
`{status: IDLE, isReading:false, isPaused:false}`. -/
def initReaderState : ReaderState :=
  { status := .idle, reading := false, paused := false }

/-- Observable state of the overlay collaborator. -/
structure OverlayState where
  present : Bool
  visible : Bool
  status : Status
  buttons : Status
deriving DecidableEq, Repr

/-- Modelled from the spec: `overlay.js` is not among the examined
sources; §2 and §6 describe `create()` as constructing the singleton
on-page element, after which `exists()` returns true. -/
def overlayCreate (o : OverlayState) : OverlayState := { o with present := true }

/-- Modelled from the spec: `overlay.show()` makes the overlay visible. -/
def overlayShow (o : OverlayState) : OverlayState := { o with visible := true }

/-- Modelled from the spec: `overlay.updateStatus(state)` sets the
overlay's status text. -/
def overlayUpdateStatus (st : Status) (o : OverlayState) : OverlayState :=
  { o with status := st }

/-- Modelled from the spec: `overlay.updateButtons(state)` sets the
overlay's button-state rendering. -/
def overlayUpdateButtons (st : Status) (o : OverlayState) : OverlayState :=
  { o with buttons := st }

/-- State owned by the content-script context: the page reader and the
overlay. -/
structure CSState where
  reader : ReaderState
  overlay : OverlayState
deriving DecidableEq, Repr

/-- Initial content-script state: reader at its load state, no overlay
created yet (the coordinator creates it lazily on the first
`START_READING`). -/
def initCSState : CSState :=
  { reader := initReaderState
    overlay := { present := false, visible := false, status := .idle, buttons := .idle } }

/-- One call made by the coordinator on a collaborator (the content
extractor, the overlay, or the page reader).  Dispatch traces are lists
of these, in execution order. -/
inductive CSCall where
  | extractContent
  | overlayExistsQ
  | overlayCreateC
  | overlayShowC
  | overlayStatusC (s : Status)
  | overlayButtonsC (s : Status)
  | readerStartC (content : String)
  | readerPauseC
  | readerResumeC
  | readerStopC
  | readerGetStatusC
  | readerIsReadingC
  | readerIsPausedC
deriving DecidableEq, Repr

/-- The opaque behaviour of the page reader's four mutating operations.
Each may update the reader state or throw (`Except.error`), matching the
spec's contract `startReading(text) -> asynchronous completion`,
`pauseReading()`, `resumeReading()`, `stopReading()`. -/
structure ReaderOps where
  start : String → ReaderState → Except String ReaderState
  pause : ReaderState → Except String ReaderState
  resume : ReaderState → Except String ReaderState
  stop : ReaderState → Except String ReaderState

/-- The embedding of JavaScript's `String.prototype.trim()` as used in
`content.trim()`: drop leading and trailing whitespace.  (Defined over
the character list so that it is structural and evaluable; Lean's own
`String.trim` is defined by well-founded recursion.) -/
def jsTrim (s : String) : String :=
  ⟨((s.data.dropWhile Char.isWhitespace).reverse.dropWhile Char.isWhitespace).reverse⟩

/-- The `try` block of the coordinator's `startReading()`: extract the
content (passed in as the oracle value returned by
`extractPageContent()`), throw on empty/whitespace-only content, lazily
create the overlay, show it, reset its status/buttons to IDLE, then
start the reader.  Returns the new state, the thrown error message if
any, and the trace of collaborator calls. -/
def csStartBody (ops : ReaderOps) (content : String) (s : CSState) :
    CSState × Option String × List CSCall :=
  if (jsTrim content).length = 0 then
    (s, some "No readable content found on this page", [.extractContent])
  else
    let created :=
      if s.overlay.present then (s.overlay, [CSCall.overlayExistsQ])
      else (overlayCreate s.overlay, [CSCall.overlayExistsQ, CSCall.overlayCreateC])
    let o2 := overlayUpdateButtons .idle (overlayUpdateStatus .idle (overlayShow created.1))
    let tr := CSCall.extractContent :: created.2 ++
      [CSCall.overlayShowC, CSCall.overlayStatusC .idle, CSCall.overlayButtonsC .idle]
    match ops.start content s.reader with
    | .ok r => ({ reader := r, overlay := o2 }, none, tr ++ [.readerStartC content])
    | .error e => ({ reader := s.reader, overlay := o2 }, some e, tr ++ [.readerStartC content])

/-- The coordinator's `startReading()` with its `catch`: on a thrown
error, if the overlay exists its status/buttons flip to ERROR, and the
error is rethrown (returned as `some message`). -/
def csStartReading (ops : ReaderOps) (content : String) (s : CSState) :
    CSState × Option String × List CSCall :=
  let r := csStartBody ops content s
  match r.2.1 with
  | none => r
  | some e =>
    if r.1.overlay.present then
      ({ r.1 with overlay := overlayUpdateButtons .error (overlayUpdateStatus .error r.1.overlay) },
       some e,
       r.2.2 ++ [.overlayExistsQ, .overlayStatusC .error, .overlayButtonsC .error])
    else
      (r.1, some e, r.2.2 ++ [.overlayExistsQ])

/-- The response objects `handleMessage` passes to `sendResponse`. -/
inductive CSResponse where
  | success
  | statusTriple (status : Status) (isReading : Bool) (isPaused : Bool)
  | errorResp (msg : String)
deriving DecidableEq, Repr

/-- `handleMessage` of the coordinator: the switch over `message.type`,
with the top-level catch turning a thrown error into an
`{error: error.message}` response.  `extracted` is the oracle value
`extractPageContent()` would return during this dispatch.  Returns the
new state, the list of values passed to `sendResponse` (in order), and
the collaborator-call trace. -/
def csHandleMessage (ops : ReaderOps) (extracted : String) (m : MsgType) (s : CSState) :
    CSState × List CSResponse × List CSCall :=
  match m with
  | .startReading =>
    let r := csStartReading ops extracted s
    match r.2.1 with
    | none => (r.1, [.success], r.2.2)
    | some e => (r.1, [.errorResp e], r.2.2)
  | .pauseReading =>
    match ops.pause s.reader with
    | .ok rd => ({ s with reader := rd }, [.success], [.readerPauseC])
    | .error e => (s, [.errorResp e], [.readerPauseC])
  | .resumeReading =>
    match ops.resume s.reader with
    | .ok rd => ({ s with reader := rd }, [.success], [.readerResumeC])
    | .error e => (s, [.errorResp e], [.readerResumeC])
  | .stopReading =>
    match ops.stop s.reader with
    | .ok rd => ({ s with reader := rd }, [.success], [.readerStopC])
    | .error e => (s, [.errorResp e], [.readerStopC])
  | .getStatus =>
    (s, [.statusTriple s.reader.status s.reader.reading s.reader.paused],
     [.readerGetStatusC, .readerIsReadingC, .readerIsPausedC])
  | .other _ => (s, [.errorResp "Unknown message type"], [])

/-! ## Popup polling timer (`popup.js`, lines 206–215)

The popup calls `setInterval(refreshStatus, 1000)` on open, keeps the
handle in `statusInterval`, and a `beforeunload` listener calls
`clearInterval(statusInterval)`.  The event loop is modelled
operationally: a `tick` event fires the interval callback when the
interval is still registered, and the `unload` event runs the
`beforeunload` listener, which unregisters it. -/

/-- State of the popup's timer wiring: whether the interval registered
at open is still active, its period as passed to `setInterval`, whether
teardown has happened, and how many times the timer has invoked
`refreshStatus`. -/
structure TimerSys where
  intervalActive : Bool
  periodMs : Nat
  unloaded : Bool
  refreshFires : Nat
deriving DecidableEq, Repr

/-- State right after the popup opens: the interval is registered with a
1000 ms period. -/
def timerInit : TimerSys :=
  { intervalActive := true, periodMs := 1000, unloaded := false, refreshFires := 0 }

/-- Events delivered to the popup's event loop that concern the timer. -/
inductive PopupEvent where
  | tick
  | unload
deriving DecidableEq, Repr

/-- One event-loop step: a `tick` invokes `refreshStatus` only while the
interval is registered; `unload` runs the `beforeunload` listener, which
calls `clearInterval(statusInterval)`. -/
def timerStep (s : TimerSys) : PopupEvent → TimerSys
  | .tick => if s.intervalActive then { s with refreshFires := s.refreshFires + 1 } else s
  | .unload => { s with intervalActive := false, unloaded := true }

/-- Run the event loop over a list of events. -/
def timerRun (s : TimerSys) : List PopupEvent → TimerSys
  | [] => s
  | e :: es => timerRun (timerStep s e) es

/-! ## Concrete sample data used by witnesses and counterexamples -/

/-- A reader-ops oracle whose four operations always succeed without
changing the reader state. -/
def trivialReaderOps : ReaderOps where
  start := fun _ r => .ok r
  pause := fun r => .ok r
  resume := fun r => .ok r
  stop := fun r => .ok r

/-- A popup environment in which `chrome.tabs.query` finds no active
tab. -/
def noTabEnv : PopupEnv where
  tab := none
  send := fun _ _ => .ok none

/-- A popup environment with an active tab whose content script answers
every message with `{status: READING}`. -/
def readingRespEnv : PopupEnv where
  tab := some 1
  send := fun _ _ => .ok (some { status := some .reading })

/-- A popup environment with an active tab where every send rejects
(unreachable content script). -/
def rejectEnv : PopupEnv where
  tab := some 1
  send := fun _ _ => .error "Could not establish connection"

/-- The popup's display state right after the initial
`updateStatus(IDLE); updateButtons(IDLE)` of `popup.js`. -/
def idlePopup : PopupState where
  currentStatus := .idle
  statusText := "Ready to read"
  readDisabled := false
  controlsDisplay := "none"
  pauseDisplay := "block"
  resumeDisplay := "none"
  pauseDisabled := true
  resumeDisabled := true
  stopDisabled := true

/-- The popup's display state while showing READING. -/
def readingPopup : PopupState where
  currentStatus := .reading
  statusText := "Reading…"
  readDisabled := true
  controlsDisplay := "flex"
  pauseDisplay := "block"
  resumeDisplay := "none"
  pauseDisabled := false
  resumeDisabled := true
  stopDisabled := false

/-! ## Claims about the popup's pure rendering functions -/

/-- Claim C2: `updateButtons` is a pure function of the display status.
READING enables pause and stop only, with start disabled and the pause
button shown; PAUSED enables resume and stop only; the terminal states
COMPLETE, STOPPED and ERROR enable only start; IDLE (the initial case)
and every value outside the enumeration take the default branch, which
hides the control row (`controls.style.display = 'none'`) and disables
all three control buttons. -/
theorem claim_C2_updateButtons (s : PopupState) (str : String) :
    ((updateButtons .reading s).readDisabled = true ∧
     (updateButtons .reading s).controlsDisplay = "flex" ∧
     (updateButtons .reading s).pauseDisplay = "block" ∧
     (updateButtons .reading s).resumeDisplay = "none" ∧
     (updateButtons .reading s).pauseDisabled = false ∧
     (updateButtons .reading s).resumeDisabled = true ∧
     (updateButtons .reading s).stopDisabled = false) ∧
    ((updateButtons .paused s).readDisabled = true ∧
     (updateButtons .paused s).controlsDisplay = "flex" ∧
     (updateButtons .paused s).pauseDisplay = "none" ∧
     (updateButtons .paused s).resumeDisplay = "block" ∧
     (updateButtons .paused s).pauseDisabled = true ∧
     (updateButtons .paused s).resumeDisabled = false ∧
     (updateButtons .paused s).stopDisabled = false) ∧
    (updateButtons .complete s = updateButtons .stopped s ∧
     updateButtons .stopped s = updateButtons .error s ∧
     (updateButtons .error s).readDisabled = false ∧
     (updateButtons .error s).controlsDisplay = "flex" ∧
     (updateButtons .error s).pauseDisabled = true ∧
     (updateButtons .error s).resumeDisabled = true ∧
     (updateButtons .error s).stopDisabled = true) ∧
    (updateButtons (.other str) s = updateButtons .idle s ∧
     (updateButtons .idle s).readDisabled = false ∧
     (updateButtons .idle s).controlsDisplay = "none" ∧
     (updateButtons .idle s).pauseDisabled = true ∧
     (updateButtons .idle s).resumeDisabled = true ∧
     (updateButtons .idle s).stopDisabled = true) := by
  refine ⟨⟨rfl, rfl, rfl, rfl, rfl, rfl, rfl⟩, ⟨rfl, rfl, rfl, rfl, rfl, rfl, rfl⟩,
    ⟨rfl, rfl, rfl, rfl, rfl, rfl, rfl⟩, ⟨rfl, rfl, rfl, rfl, rfl, rfl⟩⟩

/-- Claim C10: `updateStatus` unconditionally stores its argument in the
cached display state `currentStatus`, even for values outside the
enumeration, and for any unrecognized status the visible label falls
back to `'Ready to read'`, which is exactly the IDLE label. -/
theorem claim_C10_updateStatus (s : PopupState) (st : Status) (str : String) :
    (updateStatus st s).currentStatus = st ∧
    (updateStatus (.other str) s).statusText = "Ready to read" ∧
    (updateStatus .idle s).statusText = "Ready to read" :=
  ⟨rfl, rfl, rfl⟩

/-! ## Claims about the content-script dispatcher -/

/-- Claim C5: an inbound message whose type is not one of the five
recognized types is answered with `{error: 'Unknown message type'}`, the
state is unchanged, and no call is made on the page reader, the overlay,
or the content extractor (the collaborator-call trace is empty). -/
theorem claim_C5_unknownType (ops : ReaderOps) (extracted str : String) (s : CSState) :
    csHandleMessage ops extracted (.other str) s =
      (s, [.errorResp "Unknown message type"], []) :=
  rfl

/-- Claim C6: a `GET_STATUS` message is answered with the triple
`(status, isReading, isPaused)` read directly from the page reader, and
at the initial content-script state (before any `START_READING`) that
response is `(IDLE, false, false)`. -/
theorem claim_C6_getStatus (ops : ReaderOps) (extracted : String) (s : CSState) :
    (csHandleMessage ops extracted .getStatus s).2.1 =
      [.statusTriple s.reader.status s.reader.reading s.reader.paused] ∧
    (csHandleMessage ops extracted .getStatus s).1 = s ∧
    (csHandleMessage ops extracted .getStatus initCSState).2.1 =
      [.statusTriple .idle false false] :=
  ⟨rfl, rfl, rfl⟩

/-- Claim C9: for every inbound message the dispatcher invokes
`sendResponse` exactly once — each recognized branch responds once, the
unrecognized branch responds once with an error object, and when the
dispatched action throws, the top-level catch responds once with the
error message. -/
theorem claim_C9_oneResponse (ops : ReaderOps) (extracted : String) (m : MsgType) (s : CSState) :
    (csHandleMessage ops extracted m s).2.1.length = 1 := by
  cases m <;> simp only [csHandleMessage] <;> (try split) <;> rfl

/-- Claim C3: when the content extractor yields an empty or
whitespace-only string, the coordinator's `startReading()` throws the
`'No readable content found on this page'` error, the overlay is neither
created nor shown (no `create`/`show` call in the trace, and the
overlay's presence and visibility are unchanged), and the
`START_READING` handler responds with the error object carrying that
message instead of `{success:true}`. -/
theorem claim_C3_emptyContent (ops : ReaderOps) (content : String) (s : CSState)
    (h : jsTrim content = "") :
    (csStartReading ops content s).2.1 = some "No readable content found on this page" ∧
    CSCall.overlayCreateC ∉ (csStartReading ops content s).2.2 ∧
    CSCall.overlayShowC ∉ (csStartReading ops content s).2.2 ∧
    (csStartReading ops content s).1.overlay.present = s.overlay.present ∧
    (csStartReading ops content s).1.overlay.visible = s.overlay.visible ∧
    (csHandleMessage ops content .startReading s).2.1 =
      [.errorResp "No readable content found on this page"] := by
  have hl : (jsTrim content).length = 0 := by rw [h]; rfl
  by_cases hp : s.overlay.present <;>
    simp [csStartReading, csStartBody, csHandleMessage, hl, hp,
      overlayUpdateButtons, overlayUpdateStatus]

/-- Witness for C3 at the concrete input: the empty string extracted on
the initial content-script state. -/
theorem claim_C3_emptyContent_witness :
    jsTrim "  " = "" ∧
    CSCall.overlayCreateC ∉ (csStartReading trivialReaderOps "  " initCSState).2.2 ∧
    (csHandleMessage trivialReaderOps "  " .startReading initCSState).2.1 =
      [.errorResp "No readable content found on this page"] :=
  ⟨by decide, (claim_C3_emptyContent trivialReaderOps "  " initCSState (by decide)).2.1,
   (claim_C3_emptyContent trivialReaderOps "  " initCSState (by decide)).2.2.2.2.2⟩

/-! ## Claims about the popup's operations -/

/-- Claim C4: the popup's error handling is asymmetric.  Every failing
run of `startReading()` — no active tab, or a rejected send (unreachable
content script) — sets the cached display state to ERROR, while every
failing run of `pauseReading()`, `resumeReading()` or `stopReading()`
leaves the popup state exactly as it was before the call. -/
theorem claim_C4_asymmetry (env : PopupEnv) (s : PopupState) :
    (env.tab = none →
      (popupStartReading env s).currentStatus = .error ∧
      popupPauseReading env s = s ∧
      popupResumeReading env s = s ∧
      popupStopReading env s = s) ∧
    (∀ tid e, env.tab = some tid →
      ((env.send tid .startReading = .error e →
         (popupStartReading env s).currentStatus = .error) ∧
       (env.send tid .pauseReading = .error e → popupPauseReading env s = s) ∧
       (env.send tid .resumeReading = .error e → popupResumeReading env s = s) ∧
       (env.send tid .stopReading = .error e → popupStopReading env s = s))) := by
  constructor
  · intro ht
    simp [popupStartReading, popupPauseReading, popupResumeReading, popupStopReading,
      ht, updateButtons, updateStatus]
  · intro tid e ht
    refine ⟨fun hs => ?_, fun hs => ?_, fun hs => ?_, fun hs => ?_⟩ <;>
      simp [popupStartReading, popupPauseReading, popupResumeReading, popupStopReading,
        ht, hs, updateButtons, updateStatus]

/-- Witness for C4 at concrete inputs: with no active tab,
`startReading` flips the cache to ERROR while `pauseReading` leaves the
state untouched; with an active tab whose sends all reject,
`stopReading` also leaves the state untouched. -/
theorem claim_C4_asymmetry_witness :
    (popupStartReading noTabEnv readingPopup).currentStatus = .error ∧
    popupPauseReading noTabEnv readingPopup = readingPopup ∧
    popupStopReading rejectEnv readingPopup = readingPopup :=
  ⟨((claim_C4_asymmetry noTabEnv readingPopup).1 rfl).1,
   ((claim_C4_asymmetry noTabEnv readingPopup).1 rfl).2.1,
   ((claim_C4_asymmetry rejectEnv readingPopup).2 1
      "Could not establish connection" rfl).2.2.2 rfl⟩

/-- Counterexample to claim C1 as stated: the claim demands that
`refreshStatus()` reset the display to IDLE on *any* failure, including
"no active tab found"; but when `chrome.tabs.query` yields no tab the
source merely skips the `if (tab)` body, so a popup showing READING
keeps showing READING. -/
theorem claim_C1_counterexample :
    noTabEnv.tab = none ∧
    popupRefreshStatus noTabEnv readingPopup = readingPopup ∧
    (popupRefreshStatus noTabEnv readingPopup).currentStatus ≠ Status.idle :=
  ⟨rfl, rfl, by decide⟩

/-- Claim C1 as amended: `refreshStatus()` adopts the status of a
well-formed response (a present response whose `status` field holds a
truthy value); it resets the display to IDLE exactly when the send
itself fails (rejected promise — unreachable content script); and when
no active tab is found, or the response is absent or lacks a truthy
status field, the popup state is left unchanged. -/
theorem claim_C1_refreshStatus (env : PopupEnv) (s : PopupState) :
    (∀ tid resp st, env.tab = some tid →
      env.send tid .getStatus = .ok (some resp) → resp.status = some st →
      st.truthy = true →
      (popupRefreshStatus env s).currentStatus = st) ∧
    (∀ tid e, env.tab = some tid → env.send tid .getStatus = .error e →
      (popupRefreshStatus env s).currentStatus = .idle) ∧
    (env.tab = none → popupRefreshStatus env s = s) ∧
    (∀ tid, env.tab = some tid → env.send tid .getStatus = .ok none →
      popupRefreshStatus env s = s) ∧
    (∀ tid resp, env.tab = some tid → env.send tid .getStatus = .ok (some resp) →
      resp.status = none → popupRefreshStatus env s = s) := by
  refine ⟨fun tid resp st ht hs hst htr => ?_, fun tid e ht hs => ?_,
    fun ht => ?_, fun tid ht hs => ?_, fun tid resp ht hs hst => ?_⟩
  · simp only [popupRefreshStatus, ht, hs, hst, htr, if_true]
    cases st <;> rfl
  · simp only [popupRefreshStatus, ht, hs]
    rfl
  · simp only [popupRefreshStatus, ht]
  · simp only [popupRefreshStatus, ht, hs]
  · simp only [popupRefreshStatus, ht, hs, hst]

/-- Witness for the amended C1 at concrete inputs: a `{status: READING}`
response turns the IDLE popup's cache to READING; a rejected send resets
a READING popup to IDLE; with no active tab a READING popup is left
unchanged. -/
theorem claim_C1_refreshStatus_witness :
    (popupRefreshStatus readingRespEnv idlePopup).currentStatus = .reading ∧
    (popupRefreshStatus rejectEnv readingPopup).currentStatus = .idle ∧
    popupRefreshStatus noTabEnv readingPopup = readingPopup :=
  ⟨(claim_C1_refreshStatus readingRespEnv idlePopup).1 1
      { status := some .reading } .reading rfl rfl rfl rfl,
   (claim_C1_refreshStatus rejectEnv readingPopup).2.1 1
      "Could not establish connection" rfl rfl,
   (claim_C1_refreshStatus noTabEnv readingPopup).2.2.1 rfl⟩

/-- A successful run of the coordinator's `startReading()` passes the
overlay-setup step: the overlay exists afterwards, the trace shows the
`exists()` query, the `show()` call and the IDLE status/button resets,
and when the overlay was already present no `create()` call is made. -/
theorem csStartReading_success_spec (ops : ReaderOps) (c : String) (s : CSState)
    (h : (csStartReading ops c s).2.1 = none) :
    (csStartReading ops c s).1.overlay.present = true ∧
    CSCall.overlayExistsQ ∈ (csStartReading ops c s).2.2 ∧
    CSCall.overlayShowC ∈ (csStartReading ops c s).2.2 ∧
    CSCall.overlayStatusC .idle ∈ (csStartReading ops c s).2.2 ∧
    CSCall.overlayButtonsC .idle ∈ (csStartReading ops c s).2.2 ∧
    (s.overlay.present = true → CSCall.overlayCreateC ∉ (csStartReading ops c s).2.2) := by
  by_cases he : (jsTrim c).length = 0
  · exfalso
    by_cases hp : s.overlay.present <;>
      simp [csStartReading, csStartBody, he, hp] at h
  · cases hst : ops.start c s.reader with
    | error e =>
      exfalso
      by_cases hp : s.overlay.present <;>
        simp [csStartReading, csStartBody, he, hst, hp, overlayCreate, overlayShow,
          overlayUpdateStatus, overlayUpdateButtons] at h
    | ok r =>
      by_cases hp : s.overlay.present <;>
        simp [csStartReading, csStartBody, he, hst, hp, overlayCreate, overlayShow,
          overlayUpdateStatus, overlayUpdateButtons]

/-- Claim C7: on the success path overlay creation is idempotent at the
coordinator.  When `startReading()` succeeds twice in a row without an
intervening stop, both calls reach the overlay-setup step (both traces
query `exists()` and call `show()` with the IDLE resets), the first call
leaves the overlay existing, and the second call makes no
`overlay.create()` call, since `overlay.exists()` then returns true. -/
theorem claim_C7_overlayIdempotent (ops : ReaderOps) (c1 c2 : String) (s : CSState)
    (h1 : (csStartReading ops c1 s).2.1 = none)
    (h2 : (csStartReading ops c2 (csStartReading ops c1 s).1).2.1 = none) :
    CSCall.overlayExistsQ ∈ (csStartReading ops c1 s).2.2 ∧
    CSCall.overlayShowC ∈ (csStartReading ops c1 s).2.2 ∧
    (csStartReading ops c1 s).1.overlay.present = true ∧
    CSCall.overlayExistsQ ∈ (csStartReading ops c2 (csStartReading ops c1 s).1).2.2 ∧
    CSCall.overlayCreateC ∉ (csStartReading ops c2 (csStartReading ops c1 s).1).2.2 ∧
    CSCall.overlayShowC ∈ (csStartReading ops c2 (csStartReading ops c1 s).1).2.2 ∧
    CSCall.overlayStatusC .idle ∈ (csStartReading ops c2 (csStartReading ops c1 s).1).2.2 ∧
    CSCall.overlayButtonsC .idle ∈ (csStartReading ops c2 (csStartReading ops c1 s).1).2.2 := by
  obtain ⟨hpres, hq1, hshow1, -, -, -⟩ := csStartReading_success_spec ops c1 s h1
  obtain ⟨-, hq2, hshow2, hst2, hbt2, hnc2⟩ :=
    csStartReading_success_spec ops c2 (csStartReading ops c1 s).1 h2
  exact ⟨hq1, hshow1, hpres, hq2, hnc2 hpres, hshow2, hst2, hbt2⟩

/-- Witness for C7 at concrete inputs: two `START_READING` dispatches
with content `"hello"` starting from the initial content-script state;
the first succeeds and the second performs no `create()` call. -/
theorem claim_C7_overlayIdempotent_witness :
    (csStartReading trivialReaderOps "hello" initCSState).2.1 = none ∧
    CSCall.overlayCreateC ∉
      (csStartReading trivialReaderOps "hello"
        (csStartReading trivialReaderOps "hello" initCSState).1).2.2 :=
  ⟨by decide,
   (claim_C7_overlayIdempotent trivialReaderOps "hello" "hello" initCSState
      (by decide) (by decide)).2.2.2.2.1⟩

/-! ## The polling timer claim -/

/-- Running the event loop over a concatenation is running it over the
pieces in order. -/
theorem timerRun_append (a b : List PopupEvent) (s : TimerSys) :
    timerRun s (a ++ b) = timerRun (timerRun s a) b := by
  induction a generalizing s with
  | nil => rfl
  | cons e es ih => simp [timerRun, ih]

/-- Once the interval is unregistered, no later event makes the timer
invoke `refreshStatus` again (and nothing re-registers it). -/
theorem timerRun_inactive (evs : List PopupEvent) (s : TimerSys)
    (h : s.intervalActive = false) :
    (timerRun s evs).refreshFires = s.refreshFires := by
  induction evs generalizing s with
  | nil => rfl
  | cons e es ih =>
    cases e with
    | tick => simp only [timerRun, timerStep, h, Bool.false_eq_true, if_false]; exact ih s h
    | unload => exact ih _ rfl

/-- While no unload event has been delivered, the interval registered at
popup open stays registered. -/
theorem timerRun_noUnload_active (evs : List PopupEvent) (s : TimerSys)
    (h : PopupEvent.unload ∉ evs) (ha : s.intervalActive = true) :
    (timerRun s evs).intervalActive = true := by
  induction evs generalizing s with
  | nil => exact ha
  | cons e es ih =>
    cases e with
    | tick =>
      have h' : PopupEvent.unload ∉ es := fun hm => h (List.mem_cons_of_mem _ hm)
      simp only [timerRun, timerStep, ha, if_true]
      exact ih _ h' rfl
    | unload => exact absurd (List.mem_cons_self _ _) h

/-- Claim C8: the popup registers a repeating 1000 ms timer on open
whose tick invokes `refreshStatus` (each tick delivered before teardown
fires it exactly once), and after the teardown (`beforeunload`) event
has been processed — which runs `clearInterval(statusInterval)` — no
later tick ever fires it again. -/
theorem claim_C8_timer (pre post : List PopupEvent) :
    timerInit.periodMs = 1000 ∧
    (PopupEvent.unload ∉ pre →
      (timerRun timerInit (pre ++ [PopupEvent.tick])).refreshFires =
        (timerRun timerInit pre).refreshFires + 1) ∧
    (timerRun timerInit (pre ++ PopupEvent.unload :: post)).refreshFires =
      (timerRun timerInit (pre ++ [PopupEvent.unload])).refreshFires := by
  refine ⟨rfl, fun h => ?_, ?_⟩
  · rw [timerRun_append]
    have ha := timerRun_noUnload_active pre timerInit h rfl
    simp [timerRun, timerStep, ha]
  · rw [timerRun_append, timerRun_append]
    have hfix := timerRun_inactive post (timerStep (timerRun timerInit pre) .unload) rfl
    simpa [timerRun] using hfix

/-- Witness for C8 at a concrete event sequence: one tick fires once
while the popup is open, and two ticks delivered after the unload event
change nothing. -/
theorem claim_C8_timer_witness :
    (timerRun timerInit ([PopupEvent.tick] ++ [PopupEvent.tick])).refreshFires =
      (timerRun timerInit [PopupEvent.tick]).refreshFires + 1 ∧
    (timerRun timerInit
        ([PopupEvent.tick] ++ PopupEvent.unload :: [PopupEvent.tick, PopupEvent.tick])).refreshFires =
      (timerRun timerInit ([PopupEvent.tick] ++ [PopupEvent.unload])).refreshFires :=
  ⟨(claim_C8_timer [PopupEvent.tick] []).2.1 (by decide),
   (claim_C8_timer [PopupEvent.tick] [PopupEvent.tick, PopupEvent.tick]).2.2⟩

end Aura
